import Mathlib

/-!
Shallow embedding of `src/driver/vhci_driver.c` (usbip VHCI userspace driver
core).  Pure C helpers become Lean functions; the in-place mutation of the
global port table (`vhci_driver->idev[]`) is embedded as explicit state
passing of a `List PortRecord`; external collaborators (udev attribute
reads, the device enricher `imported_device_init`) are oracle parameters.
Machine integers are modelled as `Nat`/`Int` with explicit wrapping where
the C types force it.
-/

namespace Vhci

/-! ### Enumerated constants

The userspace header `vhci_driver.h` and the kernel `ch9.h` are not part of
`src/`; the constants below follow the usbip interface.  The claims depend
only on the constants being the distinct codes named by the spec (NULL and
NOT_ASSIGNED are the two "free" codes, everything else is occupied). -/

/-- Port occupancy code `VDEV_ST_NULL` (a free port, value 0 in the usbip
interface). -/
def VDEV_ST_NULL : Int := 0

/-- Port occupancy code `VDEV_ST_NOTASSIGNED` (free, value 1). -/
def VDEV_ST_NOTASSIGNED : Int := 1

/-- Port occupancy code `VDEV_ST_USED` (occupied, value 2). -/
def VDEV_ST_USED : Int := 2

/-- Port occupancy code `VDEV_ST_ERROR` (occupied, value 3). -/
def VDEV_ST_ERROR : Int := 3

/-- Requested-speed code `USB_SPEED_SUPER` from the USB speed enumeration
(value 5); `usbip_vhci_get_free_port` only compares the request against
this one code. -/
def USB_SPEED_SUPER : Nat := 5

/-- Hub tier of a port: `HUB_SPEED_HIGH` or `HUB_SPEED_SUPER`
(`enum hub_speed` of the interface header; only equality matters). -/
inductive HubSpeed where
  | high
  | super
deriving DecidableEq

/-! ### C character classes and token scanners

These model the parts of `sscanf(c, "%2s  %d %d %d %x %u %31s\n", ...)`
(vhci_driver.c line 58) that the status parser exercises: each conversion
skips C whitespace, then matches a maximal token; a numeric conversion with
no digits is a matching failure, and end of input before a conversion is an
input failure. -/

/-- C `isspace` on the characters that can occur in status text. -/
def isCSpace (c : Char) : Bool :=
  c = ' ' || c = '\t' || c = '\n' || c = '\r' || c = '\x0b' || c = '\x0c'

/-- Drop leading C whitespace (every sscanf conversion in the format does
this first). -/
def skipWs : List Char → List Char
  | [] => []
  | c :: rest => if isCSpace c then skipWs rest else c :: rest

/-- Take at most `max` leading non-whitespace characters (the body of a
`%Ns` conversion). Returns the token and the rest. -/
def takeNonWs : Nat → List Char → List Char × List Char
  | 0, cs => ([], cs)
  | _ + 1, [] => ([], [])
  | max + 1, c :: rest =>
    if isCSpace c then ([], c :: rest)
    else
      let (tok, r) := takeNonWs max rest
      (c :: tok, r)

/-- Take the maximal run of leading decimal digits. -/
def takeDigits : List Char → List Char × List Char
  | [] => ([], [])
  | c :: rest =>
    if c.isDigit then
      let (ds, r) := takeDigits rest
      (c :: ds, r)
    else ([], c :: rest)

/-- Value of one hexadecimal digit, if the character is one. -/
def hexVal (c : Char) : Option Nat :=
  if '0' ≤ c ∧ c ≤ '9' then some (c.toNat - '0'.toNat)
  else if 'a' ≤ c ∧ c ≤ 'f' then some (c.toNat - 'a'.toNat + 10)
  else if 'A' ≤ c ∧ c ≤ 'F' then some (c.toNat - 'A'.toNat + 10)
  else none

/-- Take the maximal run of leading hexadecimal digits. -/
def takeHexDigits : List Char → List Char × List Char
  | [] => ([], [])
  | c :: rest =>
    match hexVal c with
    | some _ =>
      let (ds, r) := takeHexDigits rest
      (c :: ds, r)
    | none => ([], c :: rest)

/-- Numeric value of a decimal digit string. -/
def digitsToNat (ds : List Char) : Nat :=
  ds.foldl (fun a c => a * 10 + (c.toNat - '0'.toNat)) 0

/-- Numeric value of a hexadecimal digit string. -/
def hexToNat (ds : List Char) : Nat :=
  ds.foldl (fun a c => a * 16 + (hexVal c).getD 0) 0

/-- Conversion `%Ns`: skip whitespace, then read 1..N non-whitespace
characters; fails (input failure) only at end of input. -/
def scanStr (max : Nat) (cs : List Char) : Option (String × List Char) :=
  match skipWs cs with
  | [] => none
  | c :: rest =>
    let (tok, r) := takeNonWs max (c :: rest)
    some (String.mk tok, r)

/-- Wrap a mathematical integer to the C `int` range (two's complement,
as assigned by the `%d` conversion). -/
def wrapInt32 (v : Int) : Int :=
  let m := v % (2 ^ 32)
  if m < 2 ^ 31 then m else m - 2 ^ 32

/-- Wrap to C `unsigned int` (the `%u` and `%x` conversions). A leading
minus sign negates in the unsigned type, as in strtoul. -/
def wrapUInt32 (neg : Bool) (v : Nat) : Nat :=
  if neg then (2 ^ 32 - v % 2 ^ 32) % 2 ^ 32 else v % 2 ^ 32

/-- Conversion `%d`: whitespace, optional sign, at least one decimal digit. -/
def scanDec (cs : List Char) : Option (Int × List Char) :=
  match skipWs cs with
  | [] => none
  | c :: rest =>
    let (neg, cs1) :=
      match c :: rest with
      | '-' :: r => (true, r)
      | '+' :: r => (false, r)
      | l => (false, l)
    match takeDigits cs1 with
    | ([], _) => none
    | (ds, r) =>
      let v : Int := digitsToNat ds
      some (wrapInt32 (if neg then -v else v), r)

/-- Conversion `%u`: like `%d` but assigned through `unsigned int`. -/
def scanUns (cs : List Char) : Option (Nat × List Char) :=
  match skipWs cs with
  | [] => none
  | c :: rest =>
    let (neg, cs1) :=
      match c :: rest with
      | '-' :: r => (true, r)
      | '+' :: r => (false, r)
      | l => (false, l)
    match takeDigits cs1 with
    | ([], _) => none
    | (ds, r) => some (wrapUInt32 neg (digitsToNat ds), r)

/-- Conversion `%x`: whitespace, optional sign, optional `0x` prefix,
at least one hexadecimal digit; assigned through `unsigned int`. -/
def scanHex (cs : List Char) : Option (Nat × List Char) :=
  match skipWs cs with
  | [] => none
  | c :: rest =>
    let (neg, cs1) :=
      match c :: rest with
      | '-' :: r => (true, r)
      | '+' :: r => (false, r)
      | l => (false, l)
    let cs2 :=
      match cs1 with
      | '0' :: 'x' :: d :: r => if (hexVal d).isSome then d :: r else cs1
      | '0' :: 'X' :: d :: r => if (hexVal d).isSome then d :: r else cs1
      | l => l
    match takeHexDigits cs2 with
    | ([], _) => none
    | (ds, r) => some (wrapUInt32 neg (hexToNat ds), r)

/-! ### The status line scan (vhci_driver.c lines 58-60)

`ret = sscanf(c, "%2s  %d %d %d %x %u %31s\n", hub, &port, &status, &speed,
&devid, &sockfd, lbusid)` — `ret` is the number of assigned conversions;
`parse_status` only tests `ret < 5`, so the result is split into `short`
(fewer than five fields assigned, including the EOF case `ret = -1`) and
`fields` (hub, port, status, speed, devid assigned; sockfd and lbusid
present only when their conversions also succeeded).  Note that sscanf
scans from the current line pointer across newlines: whitespace skipping
does not stop at the end of the line. -/

/-- Fields of a status data line assigned by the sscanf call when at least
five conversions succeed. -/
structure LineFields where
  hub : String
  port : Int
  status : Int
  speed : Int
  devid : Nat
  sockfd : Option Nat
  lbusid : Option String
deriving DecidableEq

/-- Result of the sscanf call: `short ret` when `ret < 5`. -/
inductive ScanLine where
  | short (ret : Int)
  | fields (f : LineFields)
deriving DecidableEq

/-- The sscanf call of `parse_status`, applied to the remaining input. -/
def scanStatusLine (cs : List Char) : ScanLine :=
  match scanStr 2 cs with
  | none => .short (-1)
  | some (hub, cs1) =>
    match scanDec cs1 with
    | none => .short 1
    | some (port, cs2) =>
      match scanDec cs2 with
      | none => .short 2
      | some (status, cs3) =>
        match scanDec cs3 with
        | none => .short 3
        | some (speed, cs4) =>
          match scanHex cs4 with
          | none => .short 4
          | some (devid, cs5) =>
            match scanUns cs5 with
            | none =>
              .fields { hub := hub, port := port, status := status,
                        speed := speed, devid := devid,
                        sockfd := none, lbusid := none }
            | some (sockfd, cs6) =>
              match scanStr 31 cs6 with
              | none =>
                .fields { hub := hub, port := port, status := status,
                          speed := speed, devid := devid,
                          sockfd := some sockfd, lbusid := none }
              | some (lb, _) =>
                .fields { hub := hub, port := port, status := status,
                          speed := speed, devid := devid,
                          sockfd := some sockfd, lbusid := some lb }

/-! ### The port record and table -/

/-- Device-id decomposition, bus half: `idev->busnum = (devid >> 16)`
(vhci_driver.c line 85). -/
def devid_busnum (devid : Nat) : Nat := devid >>> 16

/-- Device-id decomposition, device half: `idev->devnum =
(devid & 0x0000ffff)` (vhci_driver.c line 86). -/
def devid_devnum (devid : Nat) : Nat := devid &&& 0xffff

/-- One entry of `vhci_driver->idev[]` (`struct usbip_imported_device`).
The descriptor (`idev->udev`) filled in by the enricher is modelled as an
opaque string, present only when the enrichment ran. -/
structure PortRecord where
  hub : HubSpeed
  port : Int
  status : Int
  devid : Nat
  busnum : Nat
  devnum : Nat
  descr : Option String
deriving DecidableEq

/-- The record `parse_status` assembles for one scanned line before the
occupied-port enrichment (lines 73-86: `memset(idev, 0, ...)` followed by
the field assignments; `strncmp("hs", hub, 2) == 0` selects HIGH, every
other tag falls into the else branch and selects SUPER). -/
def record_of_line (f : LineFields) : PortRecord :=
  { hub := if f.hub = "hs" then HubSpeed.high else HubSpeed.super
    port := f.port
    status := f.status
    devid := f.devid
    busnum := devid_busnum f.devid
    devnum := devid_devnum f.devid
    descr := none }

/-- The occupied test of line 88: `status != VDEV_ST_NULL && status !=
VDEV_ST_NOTASSIGNED`. -/
def vdev_occupied (st : Int) : Bool :=
  st ≠ VDEV_ST_NULL && st ≠ VDEV_ST_NOTASSIGNED

/-- Outcome of `parse_status` / `refresh_imported_device_list`.  `ok` and
`err` are the C return values 0 and -1; `bug` models the `BUG()` macro
(which terminates the whole process); `oob` marks the out-of-bounds store
`vhci_driver->idev[port] = ...` that the C performs without any bounds
check (undefined behavior, not representable as a table update). -/
inductive POut where
  | ok
  | err
  | bug
  | oob
deriving DecidableEq

/-- Advance past the first newline: `c = strchr(c, '\n'); if (!c) ...;
c++` (lines 98-101 and the header skip at lines 46-49). -/
def dropThroughNewline : List Char → Option (List Char)
  | [] => none
  | c :: rest => if c = '\n' then some rest else dropThroughNewline rest

/-- An enricher oracle: `imported_device_init` resolving a bus id to the
device descriptor via udev (an external collaborator); `none` is the
lookup failure that makes `parse_status` return -1. -/
abbrev Enricher := String → Option String

/-- The while loop of `parse_status` (lines 51-102), fuel-indexed so that
the kernel can evaluate it (the loop advances past one newline per
iteration, so `cs.length + 1` fuel always suffices; the fuel-exhausted
case is unreachable at that fuel).  The table argument is the shared
`vhci_driver->idev[]` array that the loop mutates in place: each scanned
line is stored at the index given by its own parsed `port` field before
the occupied-port enrichment runs. -/
def parseLoopF (enr : Enricher) : Nat → List Char → List PortRecord →
    List PortRecord × POut
  | 0, _, tbl => (tbl, .err)
  | _ + 1, [], tbl => (tbl, .ok)
  | fuel + 1, c0 :: cs, tbl =>
    match scanStatusLine (c0 :: cs) with
    | .short _ => (tbl, .bug)
    | .fields f =>
      if 0 ≤ f.port ∧ f.port.toNat < tbl.length then
        let r := record_of_line f
        let tbl1 := tbl.set f.port.toNat r
        if vdev_occupied f.status then
          match enr (f.lbusid.getD "") with
          | none => (tbl1, .err)
          | some dsc =>
            let tbl2 := tbl1.set f.port.toNat { r with descr := some dsc }
            match dropThroughNewline (c0 :: cs) with
            | none => (tbl2, .ok)
            | some rest => parseLoopF enr fuel rest tbl2
        else
          match dropThroughNewline (c0 :: cs) with
          | none => (tbl1, .ok)
          | some rest => parseLoopF enr fuel rest tbl1
      else (tbl, .oob)

/-- `parse_status` (lines 40-107): skip the header line (return -1 when
there is none), then run the line loop. -/
def parse_status (enr : Enricher) (value : String)
    (tbl : List PortRecord) : List PortRecord × POut :=
  match dropThroughNewline value.toList with
  | none => (tbl, .err)
  | some cs => parseLoopF enr (cs.length + 1) cs tbl

/-- The parsed `port` field of every data line the loop would scan, in
file order (the mirror of `parseLoopF` used to state its bounds
precondition). -/
def portsOfF : Nat → List Char → List Int
  | 0, _ => []
  | _ + 1, [] => []
  | fuel + 1, c0 :: cs =>
    match scanStatusLine (c0 :: cs) with
    | .short _ => []
    | .fields f =>
      f.port ::
        match dropThroughNewline (c0 :: cs) with
        | none => []
        | some rest => portsOfF fuel rest

/-- The parsed port indices of a whole status text. -/
def statusPorts (value : String) : List Int :=
  match dropThroughNewline value.toList with
  | none => []
  | some cs => portsOfF (cs.length + 1) cs

/-- `refresh_imported_device_list` (lines 111-136): one status attribute
read per controller (`none` models a failed
`udev_device_get_sysattr_value`, which makes the refresh return -1), each
parsed into the same shared table. -/
def refresh_imported_device_list (enr : Enricher)
    (attrs : List (Option String)) (tbl : List PortRecord) :
    List PortRecord × POut :=
  match attrs with
  | [] => (tbl, .ok)
  | none :: _ => (tbl, .err)
  | some v :: rest =>
    match parse_status enr v tbl with
    | (tbl1, .ok) => refresh_imported_device_list enr rest tbl1
    | (tbl1, out) => (tbl1, out)

/-! ### Free-port scan (vhci_driver.c lines 272-292) -/

/-- The speed-class test of the switch at lines 276-285: a SUPER_SPEED
request skips every port whose hub is not SUPER, every other request skips
every port whose hub is not HIGH. -/
def classMatches (speed : Nat) (r : PortRecord) : Bool :=
  if speed = USB_SPEED_SUPER then r.hub = HubSpeed.super
  else r.hub = HubSpeed.high

/-- `usbip_vhci_get_free_port`: scan the table in ascending index order;
skip class mismatches; return the record's `port` field at the first
class-matching entry whose status is `VDEV_ST_NULL` (line 287 tests only
this one code); `none` models the C return -1. -/
def usbip_vhci_get_free_port : List PortRecord → Nat → Option Int
  | [], _ => none
  | r :: rest, speed =>
    if classMatches speed r then
      if r.status = VDEV_ST_NULL then some r.port
      else usbip_vhci_get_free_port rest speed
    else usbip_vhci_get_free_port rest speed

/-- The free-port scan as the spec sentence for claim C3 words it: first
port, in ascending order, whose status is free — where the spec counts
both `VDEV_ST_NULL` and `VDEV_ST_NOTASSIGNED` as free — and whose hub
class matches the request. -/
def find_free_port_claim (tbl : List PortRecord) (speed : Nat) : Option Int :=
  (tbl.find? fun r =>
    (r.status = VDEV_ST_NULL || r.status = VDEV_ST_NOTASSIGNED)
      && classMatches speed r).map (·.port)

/-- The free-port scan as amended to match the code: only `VDEV_ST_NULL`
counts as free. -/
def find_free_port_amended (tbl : List PortRecord) (speed : Nat) : Option Int :=
  (tbl.find? fun r => classMatches speed r && r.status = VDEV_ST_NULL).map
    (·.port)

/-! ### Device id composition (vhci_driver.c lines 322-325) -/

/-- `get_devid(uint8_t busnum, uint8_t devnum) = (busnum << 16) | devnum`.
The `uint8_t` parameter types truncate both arguments modulo 256 at the
call boundary. -/
def get_devid (busnum devnum : Nat) : Nat :=
  ((busnum % 256) <<< 16) ||| (devnum % 256)

/-! ### Attach/detach command strings (lines 294-320 and 327-352)

Only the command formatting is modelled; the sysfs write is the external
collaborator.  `snprintf(buff, 200, "%u %d %u %u", port, sockfd, devid,
speed)` renders each field in decimal (`%u` on the promoted `uint8_t`
port and on the `uint32_t` devid and speed, `%d` on the `int` sockfd);
the 200-byte bound is never reached by the four fields. -/

/-- The attach command string `"<port> <socket> <device_id> <speed>"`. -/
def attach_command (port : Nat) (sockfd : Int) (devid speed : Nat) : String :=
  toString port ++ " " ++ toString sockfd ++ " "
    ++ toString devid ++ " " ++ toString speed

/-- The detach command string `"<port>"` (`snprintf(buff, 200, "%u",
port)`). -/
def detach_command (port : Nat) : String := toString port

/-! ### Lookup (vhci_driver.c lines 354-367) -/

/-- The open driver session: `struct usbip_vhci_driver` with its port
count and the `idev` table (the session invariant ties
`idev.length = nports`). -/
structure VhciDriver where
  nports : Nat
  idev : List PortRecord
deriving DecidableEq

/-- `usbip_vhci_attached_to(port)`: `NULL` when the global driver is not
set (session not open), `NULL` when `port >= vhci_driver->nports`,
otherwise the address of `idev[port]` (here: the record itself). -/
def usbip_vhci_attached_to (drv : Option VhciDriver) (port : Nat) :
    Option PortRecord :=
  match drv with
  | none => none
  | some d => if d.nports ≤ port then none else d.idev[port]?

/-! ### Port count (vhci_driver.c lines 138-149 and the open check at
lines 201-205) -/

/-- `ULONG_MAX` of the 64-bit `unsigned long` that `strtoul` returns. -/
def ulongMax : Nat := 2 ^ 64 - 1

/-- The subject sequence `strtoul(s, NULL, 10)` recognizes: leading
whitespace, an optional sign, then a maximal run of decimal digits.
Returns the sign flag and the digit run (empty when the string is
non-numeric, in which case strtoul yields 0). -/
def strtoulParse (s : String) : Bool × List Char :=
  match skipWs s.toList with
  | '-' :: r => (true, (takeDigits r).1)
  | '+' :: r => (false, (takeDigits r).1)
  | l => (false, (takeDigits l).1)

/-- `strtoul(s, NULL, 10)`: digit value, negated in the unsigned type for
a leading minus, clamped to `ULONG_MAX` on overflow; an empty digit run
gives 0 (the caller passes no `endptr` and checks no error). -/
def strtoul10 (s : String) : Nat :=
  match strtoulParse s with
  | (neg, ds) =>
    let v := digitsToNat ds
    if ulongMax < v then ulongMax
    else if neg then (2 ^ 64 - v % 2 ^ 64) % 2 ^ 64
    else v % 2 ^ 64

/-- The `(int)` cast applied to the `unsigned long` strtoul result
(two's-complement wrap, the gcc behavior the code relies on). -/
def toCInt (n : Nat) : Int :=
  if n % 2 ^ 32 < 2 ^ 31 then ((n % 2 ^ 32 : Nat) : Int)
  else ((n % 2 ^ 32 : Nat) : Int) - 2 ^ 32

/-- `get_nports`: -1 when the `nports` attribute read fails, otherwise
`(int)strtoul(attr_nports, NULL, 10)`. -/
def get_nports (attr : Option String) : Int :=
  match attr with
  | none => -1
  | some s => toCInt (strtoul10 s)

/-- The check `usbip_vhci_driver_open` applies to the value (lines
201-205): `nports <= 0` makes the open fail with "no available ports". -/
def open_rejects_nports (n : Int) : Bool := n ≤ 0

/-! ### Concrete fixtures used by the evaluation theorems -/

/-- An enricher whose every udev lookup fails. -/
def enr0 : Enricher := fun _ => none

/-- An enricher that resolves every bus id to a descriptor. -/
def enrOk : Enricher := fun b => some ("dev:" ++ b)

/-- A distinctive pre-existing (stale) record for port `i`, as left by an
earlier refresh: occupied (`VDEV_ST_ERROR`), devid 7, with a descriptor. -/
def prStale (i : Int) : PortRecord :=
  { hub := .high, port := i, status := 3, devid := 7, busnum := 0,
    devnum := 7, descr := some "old" }

/-- A one-port table whose only record is `VDEV_ST_NOTASSIGNED` on a
HIGH_SPEED hub. -/
def tblNA : List PortRecord :=
  [{ hub := .high, port := 0, status := VDEV_ST_NOTASSIGNED, devid := 0,
     busnum := 0, devnum := 0, descr := none }]

/-- A one-port table whose only record is free (`VDEV_ST_NULL`) on a
SUPER_SPEED hub, with port field 9. -/
def tblSuper : List PortRecord :=
  [{ hub := .super, port := 9, status := 0, devid := 0,
     busnum := 0, devnum := 0, descr := none }]

/-- A two-port open session fixture. -/
def drv0 : VhciDriver := ⟨2, [prStale 0, prStale 1]⟩

end Vhci

/-! ## Theorems -/

namespace Vhci

/-- Helper: the free-port scan is the first table entry that matches the
requested class and has status `VDEV_ST_NULL`, projected to its `port`
field. -/
theorem get_free_port_eq_find (tbl : List PortRecord) (speed : Nat) :
    usbip_vhci_get_free_port tbl speed
      = (tbl.find? fun r =>
          classMatches speed r && decide (r.status = VDEV_ST_NULL)).map
          (·.port) := by
  induction tbl with
  | nil => rfl
  | cons r rest ih =>
    by_cases hc : classMatches speed r
    · by_cases hs : r.status = VDEV_ST_NULL
      · simp [usbip_vhci_get_free_port, List.find?_cons, hc, hs]
      · simp [usbip_vhci_get_free_port, List.find?_cons, hc, hs, ih]
    · simp [usbip_vhci_get_free_port, List.find?_cons, hc, ih]

/-- Claim C1 (code_bug evaluation): a status text whose data line scans
only 3 fields makes the refresh hit the `BUG()` branch of `parse_status`
(line 64), which terminates the whole process instead of surfacing a
recoverable MalformedStatusLine error; the table is whatever it was, but
there is no caller left to observe it. -/
theorem c1_short_line_aborts_process :
    refresh_imported_device_list enr0 [some "hdr\nhs 0 0\n"] [prStale 0]
      = ([prStale 0], POut.bug)
  ∧ scanStatusLine "hs 0 0\n".toList = ScanLine.short 3 := by
  exact ⟨rfl, rfl⟩

/-- Claim C2 (code_bug evaluation): `parse_status` stores records into the
shared table in place while it parses, so a refresh that fails on the
second controller (status attribute read failure) returns -1 with the
caller-visible table already holding controller 0's freshly parsed record
for port 0 next to the stale record for port 1 — neither the pre-refresh
table nor a full replacement. -/
theorem c2_failed_refresh_leaves_partial_update :
    refresh_imported_device_list enr0
        [some "hdr\nhs 0 0 2 10002 3 1-1\n", none] [prStale 0, prStale 1]
      = ([⟨.high, 0, 0, 65538, 1, 2, none⟩, prStale 1], POut.err)
  ∧ ([⟨.high, 0, 0, 65538, 1, 2, none⟩, prStale 1] : List PortRecord)
      ≠ [prStale 0, prStale 1] := by
  exact ⟨rfl, by decide⟩

/-- Claim C7 (code_bug evaluation): the hub tag test (lines 75-78) maps
"hs" to HIGH_SPEED and everything else — not just "ss" — to SUPER_SPEED:
the unrecognized tag "xx" parses successfully into a SUPER_SPEED record
instead of raising a MalformedStatusLine error. -/
theorem c7_unrecognized_tag_defaults_to_super :
    parse_status enr0 "hdr\nxx 0 0 2 10002 3 1-1\n" [prStale 0]
      = ([⟨.super, 0, 0, 65538, 1, 2, none⟩], POut.ok)
  ∧ parse_status enr0 "hdr\nhs 0 0 2 10002 3 1-1\n" [prStale 0]
      = ([⟨.high, 0, 0, 65538, 1, 2, none⟩], POut.ok)
  ∧ parse_status enr0 "hdr\nss 0 0 2 10002 3 1-1\n" [prStale 0]
      = ([⟨.super, 0, 0, 65538, 1, 2, none⟩], POut.ok) := by
  exact ⟨rfl, rfl, rfl⟩

/-- Claim C3 counterexample: on a table whose only port is NOT_ASSIGNED on
a matching HIGH_SPEED hub, the code returns "none available" while the
claim's free test (NULL or NOT_ASSIGNED both free) would return port 0:
`usbip_vhci_get_free_port` does not treat NOT_ASSIGNED as free. -/
theorem c3_counterexample :
    usbip_vhci_get_free_port tblNA 0 = none
  ∧ find_free_port_claim tblNA 0 = some 0 := by
  exact ⟨rfl, rfl⟩

/-- Claim C3 (amended): `usbip_vhci_get_free_port` scans ports in
ascending index order and returns the first port whose status is
`VDEV_ST_NULL` — NOT_ASSIGNED ports are skipped — and whose hub class
matches the requested class, or none; as a pure function of the table it
mutates nothing. -/
theorem c3_first_null_matching_port :
    ∀ (tbl : List PortRecord) (speed : Nat),
      usbip_vhci_get_free_port tbl speed = find_free_port_amended tbl speed := by
  intro tbl speed
  rw [get_free_port_eq_find]
  rfl

/-- Claim C4: the free-port scan never mixes speed classes — when a
SUPER_SPEED request returns a port, that port's record is on a SUPER_SPEED
hub (never HIGH_SPEED), and when any non-SUPER_SPEED request returns a
port, its record is on a HIGH_SPEED hub (never SUPER_SPEED). -/
theorem c4_no_class_mixing (tbl : List PortRecord) (speed : Nat) (p : Int)
    (h : usbip_vhci_get_free_port tbl speed = some p) :
    ∃ r ∈ tbl, r.port = p ∧
      (if speed = USB_SPEED_SUPER then
        r.hub ≠ HubSpeed.high ∧ r.hub = HubSpeed.super
       else
        r.hub ≠ HubSpeed.super ∧ r.hub = HubSpeed.high) := by
  rw [get_free_port_eq_find] at h
  rcases hf : tbl.find? fun r =>
      classMatches speed r && decide (r.status = VDEV_ST_NULL) with _ | r
  · rw [hf] at h; exact Option.noConfusion h
  · rw [hf] at h
    have hport : r.port = p := by simpa using h
    have hmem := List.mem_of_find?_eq_some hf
    have hpred := List.find?_some hf
    simp only [Bool.and_eq_true, decide_eq_true_eq] at hpred
    have hclass := hpred.1
    refine ⟨r, hmem, hport, ?_⟩
    unfold classMatches at hclass
    by_cases hsp : speed = USB_SPEED_SUPER
    · rw [if_pos hsp] at hclass ⊢
      simp only [decide_eq_true_eq] at hclass
      exact ⟨by rw [hclass]; exact fun hc => HubSpeed.noConfusion hc, hclass⟩
    · rw [if_neg hsp] at hclass ⊢
      simp only [decide_eq_true_eq] at hclass
      exact ⟨by rw [hclass]; exact fun hc => HubSpeed.noConfusion hc, hclass⟩

/-- Witness for C4: on a table whose only record is a free SUPER_SPEED
port 9, the SUPER_SPEED request (speed code 5) returns port 9 and the
found record is on a SUPER_SPEED hub. -/
theorem c4_witness :
    ∃ r ∈ tblSuper, r.port = 9 ∧
      (if 5 = USB_SPEED_SUPER then
        r.hub ≠ HubSpeed.high ∧ r.hub = HubSpeed.super
       else
        r.hub ≠ HubSpeed.super ∧ r.hub = HubSpeed.high) :=
  c4_no_class_mixing tblSuper 5 9 rfl

/-- Claim C5 counterexample: the 32-bit value 256 (bus number 0, device
number 256) does not round-trip, because `get_devid` takes `uint8_t`
parameters that truncate the 16-bit device number to 256 % 256 = 0. -/
theorem c5_counterexample :
    get_devid (devid_busnum 256) (devid_devnum 256) = 0
  ∧ (256 : Nat) ≠ 0 ∧ (256 : Nat) < 2 ^ 32 := by
  exact ⟨rfl, by decide, by decide⟩

/-- Claim C5 (amended): composition inverts decomposition exactly when
both halves fit the `uint8_t` parameters of `get_devid`: for every 32-bit
`x` whose bus number (high 16 bits) and device number (low 16 bits) are
both below 256, `get_devid (x >> 16) (x & 0xffff) = x`. -/
theorem c5_roundtrip_in_byte_range (x : Nat) (_h32 : x < 2 ^ 32)
    (hb : devid_busnum x < 256) (hd : devid_devnum x < 256) :
    get_devid (devid_busnum x) (devid_devnum x) = x := by
  unfold get_devid
  rw [Nat.mod_eq_of_lt hb, Nat.mod_eq_of_lt hd]
  unfold devid_busnum devid_devnum
  have hmask : x &&& 0xffff = x % 65536 := by
    have h := Nat.and_pow_two_sub_one_eq_mod x 16
    norm_num at h
    exact h
  have hshift : x >>> 16 = x / 65536 := by
    rw [Nat.shiftRight_eq_div_pow]
  rw [hmask, hshift, Nat.shiftLeft_eq]
  have hlt : x % 65536 < 2 ^ 16 := by
    have h1 : x % 65536 < 65536 := Nat.mod_lt x (by norm_num)
    norm_num
    exact h1
  calc x / 65536 * 2 ^ 16 ||| x % 65536
      = 2 ^ 16 * (x / 65536) ||| x % 65536 := by rw [Nat.mul_comm]
    _ = 2 ^ 16 * (x / 65536) + x % 65536 :=
        (Nat.mul_add_lt_is_or hlt (x / 65536)).symm
    _ = x := by norm_num [Nat.div_add_mod]

/-- Witness for C5: x = 0x00010002 = 65538 (bus 1, device 2) is 32-bit
with both halves in byte range, and it round-trips. -/
theorem c5_witness :
    (65538 : Nat) < 2 ^ 32 ∧ devid_busnum 65538 < 256
  ∧ devid_devnum 65538 < 256
  ∧ get_devid (devid_busnum 65538) (devid_devnum 65538) = 65538 :=
  ⟨by decide, by decide, by decide,
    c5_roundtrip_in_byte_range 65538 (by decide) (by decide) (by decide)⟩

/-- Claim C6: the attach command is exactly the four fields in decimal,
space-separated — `"3 7 65538 3"` for port 3, socket 7, device id
0x00010002, speed 3 — and the detach command is exactly the decimal port,
`"5"` for port 5. -/
theorem c6_command_strings :
    attach_command 3 7 65538 3 = "3 7 65538 3"
  ∧ detach_command 5 = "5"
  ∧ (∀ (port : Nat) (sockfd : Int) (devid speed : Nat),
      attach_command port sockfd devid speed
        = String.intercalate " "
            [toString port, toString sockfd, toString devid, toString speed])
  ∧ (∀ port : Nat, detach_command port = toString port) := by
  refine ⟨rfl, rfl, ?_, fun _ => rfl⟩
  intro port sockfd devid speed
  simp [attach_command, String.intercalate, String.intercalate.go,
    String.append_assoc]

/-- Claim C8: `usbip_vhci_attached_to` is a total query — it returns none
when the session is not open (driver unset) and none when the port index
is at or beyond `nports`, and for an open session with the table sized to
`nports` it returns the record at the in-range index. -/
theorem c8_attached_to_total :
    (∀ p, usbip_vhci_attached_to none p = none)
  ∧ (∀ (d : VhciDriver) (p : Nat), d.nports ≤ p →
      usbip_vhci_attached_to (some d) p = none)
  ∧ (∀ (d : VhciDriver) (p : Nat), d.idev.length = d.nports →
      p < d.nports →
      ∃ r, usbip_vhci_attached_to (some d) p = some r
        ∧ d.idev[p]? = some r) := by
  refine ⟨fun _ => rfl, ?_, ?_⟩
  · intro d p h
    simp [usbip_vhci_attached_to, h]
  · intro d p hlen hp
    have hlt : p < d.idev.length := by rw [hlen]; exact hp
    refine ⟨d.idev[p], ?_, List.getElem?_eq_getElem hlt⟩
    rw [usbip_vhci_attached_to]
    rw [if_neg (by omega)]
    exact List.getElem?_eq_getElem hlt

/-- Witness for C8: the two-port fixture session answers none for the
out-of-range port 5 and yields the stored record for port 1; an unopened
session answers none. -/
theorem c8_witness :
    usbip_vhci_attached_to none 0 = none
  ∧ usbip_vhci_attached_to (some drv0) 5 = none
  ∧ ∃ r, usbip_vhci_attached_to (some drv0) 1 = some r
      ∧ drv0.idev[1]? = some r :=
  ⟨c8_attached_to_total.1 0,
    c8_attached_to_total.2.1 drv0 5 (by decide),
    c8_attached_to_total.2.2 drv0 1 (by decide) (by decide)⟩

/-- Claim C9 counterexample: `get_nports` signals a failed attribute read
by returning -1, but a present non-numeric value "abc" is converted by
strtoul to 0 (no error surfaces, and 0 is also what a genuine "0" gives),
while the perfectly numeric value "4294967295" comes back as -1 through
the unclamped `(int)` cast — the opposite of the claimed behavior on both
counts. -/
theorem c9_counterexample :
    get_nports (some "abc") = 0
  ∧ get_nports (some "abc") ≠ get_nports none
  ∧ get_nports (some "4294967295") = -1
  ∧ get_nports (some "4294967295") < 0 := by
  refine ⟨rfl, by decide, by decide, by decide⟩

/-- Claim C9 (amended): `get_nports` fails with the attribute-missing
signal (-1) only when the attribute is absent; a present value is
converted as `(int)strtoul(value, NULL, 10)`, so non-numeric text quietly
converts to 0, which `usbip_vhci_driver_open` then rejects through its
`nports <= 0` check rather than as a missing attribute; the conversion is
modular, not clamped to non-negative. -/
theorem c9_nports_behavior :
    get_nports none = -1
  ∧ (∀ s : String, (strtoulParse s).2 = [] →
      get_nports (some s) = 0
        ∧ open_rejects_nports (get_nports (some s)) = true)
  ∧ get_nports (some "3") = 3
  ∧ get_nports (some "4294967295") = -1 := by
  refine ⟨rfl, ?_, by decide, by decide⟩
  intro s hnd
  have hval : strtoul10 s = 0 := by
    unfold strtoul10
    rcases hp : strtoulParse s with ⟨neg, ds⟩
    rw [hp] at hnd
    simp only at hnd
    subst hnd
    cases neg <;> simp [digitsToNat, ulongMax]
  constructor
  · show toCInt (strtoul10 s) = 0
    rw [hval]
    rfl
  · show open_rejects_nports (toCInt (strtoul10 s)) = true
    rw [hval]
    rfl

/-- Witness for C9: the non-numeric attribute value "abc" converts to 0
and is rejected by the open check. -/
theorem c9_witness :
    get_nports (some "abc") = 0
  ∧ open_rejects_nports (get_nports (some "abc")) = true :=
  c9_nports_behavior.2.1 "abc" (by decide)

/-- Helper: the parse loop never performs an out-of-bounds store when
every scanned line's parsed port index is within the table. -/
theorem parseLoopF_no_oob (enr : Enricher) :
    ∀ (fuel : Nat) (cs : List Char) (tbl : List PortRecord),
      (∀ p ∈ portsOfF fuel cs, 0 ≤ p ∧ p.toNat < tbl.length) →
      (parseLoopF enr fuel cs tbl).2 ≠ POut.oob := by
  intro fuel
  induction fuel with
  | zero =>
    intro cs tbl _
    simp [parseLoopF]
  | succ fuel ih =>
    intro cs tbl hpre
    cases cs with
    | nil => simp [parseLoopF]
    | cons c0 cs' =>
      cases hscan : scanStatusLine (c0 :: cs') with
      | short r =>
        simp [parseLoopF, hscan]
      | fields f =>
        have hp : 0 ≤ f.port ∧ f.port.toNat < tbl.length := by
          apply hpre
          simp [portsOfF, hscan]
        simp only [parseLoopF, hscan]
        rw [if_pos hp]
        cases hocc : vdev_occupied f.status with
        | false =>
          simp only [hocc, Bool.false_eq_true, if_false]
          cases hdrop : dropThroughNewline (c0 :: cs') with
          | none => simp
          | some rest =>
            apply ih
            intro p hpmem
            have hmem : p ∈ portsOfF (fuel + 1) (c0 :: cs') := by
              simp only [portsOfF, hscan, hdrop, List.mem_cons]
              exact Or.inr hpmem
            have h2 := hpre p hmem
            simpa [List.length_set] using h2
        | true =>
          simp only [hocc, if_true]
          cases henr : enr (f.lbusid.getD "") with
          | none => simp
          | some dsc =>
            simp only []
            cases hdrop : dropThroughNewline (c0 :: cs') with
            | none => simp
            | some rest =>
              apply ih
              intro p hpmem
              have hmem : p ∈ portsOfF (fuel + 1) (c0 :: cs') := by
                simp only [portsOfF, hscan, hdrop, List.mem_cons]
                exact Or.inr hpmem
              have h2 := hpre p hmem
              simpa [List.length_set] using h2

/-- Claim C10: each parsed status line is stored at the index given by the
line's own parsed port field with no bounds check — the store is in bounds
under the precondition that every scanned port lies in [0, table length),
a precondition nothing in the code verifies: the same parser that is safe
under the precondition performs an out-of-bounds store (undefined
behavior, the `oob` outcome) on a status text naming port 5 against a
1-port table, and on an in-range text the new record lands exactly at its
line's parsed port index (here 2). -/
theorem c10_unchecked_port_store :
    (∀ (enr : Enricher) (value : String) (tbl : List PortRecord),
        (∀ p ∈ statusPorts value, 0 ≤ p ∧ p.toNat < tbl.length) →
        (parse_status enr value tbl).2 ≠ POut.oob)
  ∧ parse_status enr0 "hdr\nhs 5 0 2 10002 3 1-1\n" [prStale 0]
      = ([prStale 0], POut.oob)
  ∧ parse_status enrOk "hdr\nhs 2 1 2 10002 3 1-1\n"
        [prStale 0, prStale 1, prStale 2]
      = ([prStale 0, prStale 1, ⟨.high, 2, 1, 65538, 1, 2, none⟩],
          POut.ok) := by
  refine ⟨?_, rfl, rfl⟩
  intro enr value tbl hpre
  unfold parse_status
  unfold statusPorts at hpre
  cases hdr : dropThroughNewline value.toList with
  | none => simp
  | some cs =>
    rw [hdr] at hpre
    exact parseLoopF_no_oob enr (cs.length + 1) cs tbl hpre

/-- Witness for C10: an in-range status text (single line for port 0,
1-port table) satisfies the precondition and the parse performs no
out-of-bounds store. -/
theorem c10_witness :
    (parse_status enr0 "hdr\nhs 0 0 2 10002 3 1-1\n" [prStale 0]).2
      ≠ POut.oob :=
  c10_unchecked_port_store.1 enr0 "hdr\nhs 0 0 2 10002 3 1-1\n" [prStale 0]
    (by decide)

end Vhci
